import Mathlib

/-!
Shallow embedding of the SWAT model-ensemble anomaly-scoring engine
(backend/wrappers and backend/utils/model_loader.py) together with proofs
about its forecast fallback chain, inverse-frequency weighting, score
aggregation, probability calibration and model-family dispatch.

Modelling conventions:
  - Python floats are modelled as exact rationals where the code is pure
    arithmetic, and the results are pushed into the reals where the code
    takes square roots or exponentials (np.std, np.exp).
  - Batches model a pandas DataFrame after select_dtypes: a row count plus
    named numeric NaN-free columns.  The EWMA control chart, whose NaN
    handling is under study, takes Option-valued series (none models NaN).
  - A raised exception is modelled as the value none of an Option result.
-/

namespace Swat

/-- Numerical guard used by every wrapper module (EPS = 1e-12). -/
def EPS : ℚ := 1 / 10 ^ 12

/-- Arithmetic mean (np.mean); on the NaN-free data modelled here
np.nanmean coincides with it.  The empty-list value 0 is never reached on
the code paths we model. -/
def listMean (xs : List ℚ) : ℚ := xs.sum / xs.length

/-- Population variance, the square of np.std (ddof = 0). -/
def popVar (xs : List ℚ) : ℚ := listMean (xs.map (fun x => (x - listMean xs) ^ 2))

/-- Python float truthiness fallback x or d: None and 0.0 are falsy. -/
def pyFloatOr (v : Option ℚ) (d : ℚ) : ℚ :=
  match v with
  | none => d
  | some x => if x = 0 then d else x

/-- Python dict truthiness fallback x or d: a missing key and an empty
dict are both falsy. -/
def pyDictOr {α : Type} (v : Option (List α)) (d : List α) : List α :=
  match v with
  | none => d
  | some l => if l.isEmpty then d else l

/-- Python string truthiness of an optional field: None and the empty
string are falsy (the shape of the checks if info.get and if not sensor). -/
def strTruthy : Option String → Option String
  | none => none
  | some t => if t = "" then none else some t

/-- One value of an artifact forecast map (a ForecastEntry).  The two
reflective fitted-forecaster capabilities probed in
ArimaWrapper.forecast_series (an embedded fitted_model object, then a
forecaster unpickled from fitted_path) are each collapsed into a single
function from the horizon length to an optional series; a none result
models a missing file, a missing capability, or a raised-and-swallowed
exception, all of which make the provider fall through. -/
structure ForecastEntry where
  target_sensor : Option String := none
  z_threshold : ℚ := 3
  window_size : ℕ := 0
  importance : ℚ := 1
  last_values : List ℚ := []
  fitted_model : Option (ℕ → Option (List ℚ)) := none
  fitted_path : Option (ℕ → Option (List ℚ)) := none

/-- A value of the forecast map: a well-formed entry dict, or a non-dict
value which every isinstance(info, dict) guard skips. -/
inductive ModelVal where
  | entry (e : ForecastEntry)
  | junk

/-- The parts of a loaded model artifact dict that the scoring engine
reads.  anomaly_threshold holds the resolved value of the base-class chain
training_params.get(anomaly_threshold, config.get(anomaly_threshold, 1.0));
none models an explicitly stored None, and the field defaults to 1 as in
BaseModelWrapper. -/
structure ModelDict where
  forecast_models : Option (List (String × ModelVal)) := none
  arima_models : Option (List (String × ModelVal)) := none
  anomaly_threshold : Option ℚ := some 1

/-- A tabular batch after BaseModelWrapper.ensure_numeric: the DataFrame
row count plus the named numeric columns. -/
structure Batch where
  nrows : ℕ
  cols : List (String × List ℚ)

/-- Column lookup, modelling sensor in numeric.columns plus numeric[sensor]. -/
def Batch.col? (X : Batch) (s : String) : Option (List ℚ) :=
  (X.cols.find? (fun c => c.1 == s)).map (fun c => c.2)

/-- np.resize: tile the array cyclically to the requested length; resizing
an empty array yields zeros. -/
def npResize (a : List ℚ) (m : ℕ) : List ℚ :=
  if a.isEmpty then List.replicate m 0
  else (List.range m).map (fun i => a.getD (i % a.length) 0)

/-- Entry i of csum = np.concatenate(([0.0], np.cumsum(series))): the sum
of the first i values. -/
def csum (series : List ℚ) (i : ℕ) : ℚ := (series.take i).sum

/-- The window_size moving-average fallback shared verbatim by
ArimaWrapper.forecast_series, HoltWintersWrapper.fallback_forecast,
ExpESDZScoreWrapper.forecast_fallback (and the Granger/fast-inference
copies).  For i below the window the loop writes series[0] at i = 0 and
csum[i]/i afterwards.  When n > window the source computes
idx = np.arange(window, n + 1) and assigns ws = csum[idx] - csum[idx - window]
of length n + 1 - window into the slice out[window:] of length n - window;
numpy raises ValueError on that length mismatch, which the embedding
returns as none. -/
def windowForecast (window : ℕ) (series : List ℚ) : Option (List ℚ) :=
  let n := series.length
  let head := (List.range (min window n)).map
    (fun i => if i = 0 then series.headI else csum series i / i)
  if window < n then
    let ws := (List.range (n + 1 - window)).map
      (fun j => (csum series (window + j) - csum series j) / window)
    if ws.length = n - window then some (head ++ ws) else none
  else some head

/-- Result of probing the embedded fitted forecaster. -/
def ForecastEntry.fittedResult (info : ForecastEntry) (n : ℕ) : Option (List ℚ) :=
  match info.fitted_model with
  | some f => f n
  | none => none

/-- Result of probing the external fitted_path forecaster. -/
def ForecastEntry.pathResult (info : ForecastEntry) (n : ℕ) : Option (List ℚ) :=
  match info.fitted_path with
  | some f => f n
  | none => none

/-- ArimaWrapper.forecast_series: zero-length input yields an empty
forecast; then the precedence chain embedded fitted model, external
fitted_path, last_values (constant last recorded value), window_size
moving average, and finally the series mean. -/
def ArimaWrapper.forecast_series (info : ForecastEntry) (series : List ℚ) :
    Option (List ℚ) :=
  let n := series.length
  if n = 0 then some []
  else
    match info.fittedResult n with
    | some fc => some fc
    | none =>
      match info.pathResult n with
      | some fc => some fc
      | none =>
        if ¬ info.last_values.isEmpty then
          some (List.replicate n (info.last_values.getLastD 0))
        else if 1 < info.window_size then
          windowForecast info.window_size series
        else
          some (List.replicate n (listMean series))

/-- HoltWintersWrapper.fallback_forecast: last_values, then the window
moving average, then the series mean (no fitted-model probing and no
zero-length early return in this wrapper). -/
def HoltWintersWrapper.fallback_forecast (info : ForecastEntry) (series : List ℚ) :
    Option (List ℚ) :=
  let n := series.length
  if ¬ info.last_values.isEmpty then
    some (List.replicate n (info.last_values.getLastD 0))
  else if 1 < info.window_size then
    windowForecast info.window_size series
  else
    some (List.replicate n (listMean series))

/-- ExpESDZScoreWrapper.forecast_fallback, textually identical to the
Holt-Winters fallback. -/
def ExpESDZScoreWrapper.forecast_fallback (info : ForecastEntry) (series : List ℚ) :
    Option (List ℚ) :=
  let n := series.length
  if ¬ info.last_values.isEmpty then
    some (List.replicate n (info.last_values.getLastD 0))
  else if 1 < info.window_size then
    windowForecast info.window_size series
  else
    some (List.replicate n (listMean series))

/-- HighSensitivityWrapper.forecast_simple: last_values, else the series
mean; this provider has no window branch and never raises. -/
def HighSensitivityWrapper.forecast_simple (info : ForecastEntry) (series : List ℚ) :
    List ℚ :=
  if ¬ info.last_values.isEmpty then
    List.replicate series.length (info.last_values.getLastD 0)
  else
    List.replicate series.length (listMean series)

/-- The targets list built by compute_inverse_frequency, a method repeated
verbatim in the ARIMA, Holt-Winters, ESD-zscore and high-sensitivity
wrappers: the target_sensor of every dict-shaped entry whose target is
truthy (present and nonempty). -/
def targetsOf (models : List (String × ModelVal)) : List String :=
  models.filterMap (fun kv =>
    match kv.2 with
    | .entry e => strTruthy e.target_sensor
    | .junk => none)

/-- Lookup sensor_weights.get(sensor, 1.0): compute_inverse_frequency maps
each distinct target to one over its frequency among the targets, and the
aggregation loop defaults an absent sensor to 1.0. -/
def sensorWeight (models : List (String × ModelVal)) (s : String) : ℚ :=
  let k := (targetsOf models).count s
  if k = 0 then 1 else 1 / k

/-- sum(sensor_weights.values()): one inverse-frequency term per distinct
target sensor. -/
def totalSensorWeight (models : List (String × ModelVal)) : ℚ :=
  ((targetsOf models).dedup.map (fun s => 1 / (((targetsOf models).count s : ℚ)))).sum

/-- Model-map selection of ArimaWrapper.__init__:
model_dict.get(forecast_models) or model_dict.get(arima_models) or emptydict. -/
def ArimaWrapper.modelsOf (d : ModelDict) : List (String × ModelVal) :=
  pyDictOr d.forecast_models (pyDictOr d.arima_models [])

/-- Model-map selection of HoltWintersWrapper.__init__:
model_dict.get(forecast_models) or emptydict (no arima_models fallback). -/
def HoltWintersWrapper.modelsOf (d : ModelDict) : List (String × ModelVal) :=
  pyDictOr d.forecast_models []

/-- Model-map selection of ExpESDZScoreWrapper.__init__:
model_dict.get(forecast_models) or emptydict. -/
def ExpESDZScoreWrapper.modelsOf (d : ModelDict) : List (String × ModelVal) :=
  pyDictOr d.forecast_models []

/-- Model-map selection of HighSensitivityWrapper.__init__:
model_dict.get(forecast_models) or emptydict. -/
def HighSensitivityWrapper.modelsOf (d : ModelDict) : List (String × ModelVal) :=
  pyDictOr d.forecast_models []

/-- Outcome of one loop iteration in an aggregate_score method. -/
inductive EntryOutcome where
  | raised
  | skipped
  | contrib (v : List ℝ)

/-- One iteration of the aggregation loop shared (up to the forecast
provider, the violation predicate and the contribution multiplier, the
only three points where the four forecast-ensemble wrappers differ) by the
aggregate_score methods of ArimaWrapper, HoltWintersWrapper,
ExpESDZScoreWrapper and HighSensitivityWrapper: skip non-dict entries,
falsy targets and sensors absent from the batch; obtain a forecast
(raised when the provider raises); np.resize a length-divergent forecast;
skip the entry when the residual standard deviation is below EPS; and
otherwise emit the per-step violation flags scaled by
sensor_weight * importance * contribMult. -/
noncomputable def entryContribution
    (forecastOf : ForecastEntry → List ℚ → Option (List ℚ))
    (violFlag : ℝ → ℚ → ℝ) (contribMult : ℚ)
    (weights : String → ℚ) (X : Batch) (v : ModelVal) : EntryOutcome :=
  match v with
  | .junk => .skipped
  | .entry e =>
    match strTruthy e.target_sensor with
    | none => .skipped
    | some s =>
      match X.col? s with
      | none => .skipped
      | some series =>
        match forecastOf e series with
        | none => .raised
        | some fc0 =>
          let fc := if fc0.length ≠ series.length then npResize fc0 series.length else fc0
          let residual := List.zipWith (fun a b => a - b) series fc
          let std : ℝ := Real.sqrt ((popVar residual : ℚ) : ℝ)
          if std < ((EPS : ℚ) : ℝ) then .skipped
          else
            let viol := residual.map
              (fun (r : ℚ) => violFlag (|((r : ℚ) : ℝ)| / (std + ((EPS : ℚ) : ℝ))) e.z_threshold)
            .contrib (viol.map (fun x => x * ((weights s * e.importance * contribMult : ℚ) : ℝ)))

/-- Accumulation loop of aggregate_score: total starts at zeros(n), each
contributing entry is added elementwise, and a raised forecast exception
propagates out of the call. -/
noncomputable def aggregateLoop (step : ModelVal → EntryOutcome) :
    List ℝ → List (String × ModelVal) → Option (List ℝ)
  | total, [] => some total
  | total, kv :: rest =>
    match step kv.2 with
    | .raised => none
    | .skipped => aggregateLoop step total rest
    | .contrib c => aggregateLoop step (List.zipWith (fun a b => a + b) total c) rest

/-- Baseline violation flag of the ARIMA and Holt-Winters scorers:
1.0 when z exceeds the entry z_threshold, else 0.0. -/
noncomputable def baselineViol (z : ℝ) (zth : ℚ) : ℝ :=
  if (zth : ℝ) < z then 1 else 0

/-- Exponential dampening map z to 1 - exp(-z) applied by
ExpESDZScoreWrapper to both the z-values and the entry threshold. -/
noncomputable def dampen (z : ℝ) : ℝ := 1 - Real.exp (-z)

/-- Violation flag of the exponential-dampened scorer: compare the
dampened z-value against the dampened threshold. -/
noncomputable def expViol (z : ℝ) (zth : ℚ) : ℝ :=
  if dampen (zth : ℝ) < dampen z then 1 else 0

/-- Violation flag of the high-sensitivity scorer: the effective threshold
is z_threshold * 0.85. -/
noncomputable def hsViol (z : ℝ) (zth : ℚ) : ℝ :=
  if ((zth * (17 / 20) : ℚ) : ℝ) < z then 1 else 0

/-- Shared body of the four aggregate_score methods: an empty batch
returns zeros(0) before any entry logic runs; otherwise run the
accumulation loop from zeros(nrows). -/
noncomputable def ensembleAggregate
    (forecastOf : ForecastEntry → List ℚ → Option (List ℚ))
    (violFlag : ℝ → ℚ → ℝ) (contribMult : ℚ)
    (models : List (String × ModelVal)) (X : Batch) : Option (List ℝ) :=
  if X.nrows = 0 then some []
  else
    aggregateLoop (entryContribution forecastOf violFlag contribMult (sensorWeight models) X)
      (List.replicate X.nrows 0) models

/-- ArimaWrapper.aggregate_score. -/
noncomputable def ArimaWrapper.aggregate_score (d : ModelDict) (X : Batch) :
    Option (List ℝ) :=
  ensembleAggregate ArimaWrapper.forecast_series baselineViol 1 (ArimaWrapper.modelsOf d) X

/-- HoltWintersWrapper.aggregate_score. -/
noncomputable def HoltWintersWrapper.aggregate_score (d : ModelDict) (X : Batch) :
    Option (List ℝ) :=
  ensembleAggregate (fun e s => HoltWintersWrapper.fallback_forecast e s) baselineViol 1
    (HoltWintersWrapper.modelsOf d) X

/-- ExpESDZScoreWrapper.aggregate_score. -/
noncomputable def ExpESDZScoreWrapper.aggregate_score (d : ModelDict) (X : Batch) :
    Option (List ℝ) :=
  ensembleAggregate (fun e s => ExpESDZScoreWrapper.forecast_fallback e s) expViol 1
    (ExpESDZScoreWrapper.modelsOf d) X

/-- HighSensitivityWrapper.aggregate_score: simple forecast provider,
0.85-scaled thresholds, and contributions magnified by 1.25. -/
noncomputable def HighSensitivityWrapper.aggregate_score (d : ModelDict) (X : Batch) :
    Option (List ℝ) :=
  ensembleAggregate (fun e s => some (HighSensitivityWrapper.forecast_simple e s)) hsViol
    (5 / 4) (HighSensitivityWrapper.modelsOf d) X

/-- Binary decision (raw >= thr).astype(int) with
thr = float(self.anomaly_threshold or 1.0). -/
noncomputable def thresholdDecision (thr : ℚ) (raw : List ℝ) : List ℤ :=
  raw.map (fun r => if (thr : ℝ) ≤ r then 1 else 0)

/-- ArimaWrapper.predict. -/
noncomputable def ArimaWrapper.predict (d : ModelDict) (X : Batch) : Option (List ℤ) :=
  (ArimaWrapper.aggregate_score d X).map (thresholdDecision (pyFloatOr d.anomaly_threshold 1))

/-- HoltWintersWrapper.predict. -/
noncomputable def HoltWintersWrapper.predict (d : ModelDict) (X : Batch) : Option (List ℤ) :=
  (HoltWintersWrapper.aggregate_score d X).map
    (thresholdDecision (pyFloatOr d.anomaly_threshold 1))

/-- ExpESDZScoreWrapper.predict. -/
noncomputable def ExpESDZScoreWrapper.predict (d : ModelDict) (X : Batch) : Option (List ℤ) :=
  (ExpESDZScoreWrapper.aggregate_score d X).map
    (thresholdDecision (pyFloatOr d.anomaly_threshold 1))

/-- HighSensitivityWrapper.predict. -/
noncomputable def HighSensitivityWrapper.predict (d : ModelDict) (X : Batch) :
    Option (List ℤ) :=
  (HighSensitivityWrapper.aggregate_score d X).map
    (thresholdDecision (pyFloatOr d.anomaly_threshold 1))

/-- Logistic function 1 / (1 + np.exp(-x)). -/
noncomputable def sigmoid (x : ℝ) : ℝ := 1 / (1 + Real.exp (-x))

/-- np.clip(prob, 1e-5, 1 - 1e-5). -/
noncomputable def clipProb (p : ℝ) : ℝ :=
  min (max p (1 / 10 ^ 5)) (1 - 1 / 10 ^ 5)

/-- ArimaWrapper.predict_proba: an empty raw vector yields the single
default row [1, 0]; otherwise center = float(anomaly_threshold or 1.0),
scale = max(total sensor weight / 3, 0.75), and each probability is the
clipped sigmoid of (raw - center) / (scale + EPS), emitted as [1 - p, p]. -/
noncomputable def ArimaWrapper.predict_proba (d : ModelDict) (X : Batch) :
    Option (List (ℝ × ℝ)) :=
  (ArimaWrapper.aggregate_score d X).map (fun raw =>
    if raw.isEmpty then [(1, 0)]
    else
      let center : ℝ := ((pyFloatOr d.anomaly_threshold 1 : ℚ) : ℝ)
      let scale : ℝ := max (((totalSensorWeight (ArimaWrapper.modelsOf d) : ℚ) : ℝ) / 3) (3 / 4)
      raw.map (fun r =>
        let p := clipProb (sigmoid ((r - center) / (scale + ((EPS : ℚ) : ℝ))))
        (1 - p, p)))

/-- HoltWintersWrapper.predict_proba (same calibration constants as the
ARIMA wrapper). -/
noncomputable def HoltWintersWrapper.predict_proba (d : ModelDict) (X : Batch) :
    Option (List (ℝ × ℝ)) :=
  (HoltWintersWrapper.aggregate_score d X).map (fun raw =>
    if raw.isEmpty then [(1, 0)]
    else
      let center : ℝ := ((pyFloatOr d.anomaly_threshold 1 : ℚ) : ℝ)
      let scale : ℝ :=
        max (((totalSensorWeight (HoltWintersWrapper.modelsOf d) : ℚ) : ℝ) / 3) (3 / 4)
      raw.map (fun r =>
        let p := clipProb (sigmoid ((r - center) / (scale + ((EPS : ℚ) : ℝ))))
        (1 - p, p)))

/-- ExpESDZScoreWrapper.predict_proba (same calibration constants as the
ARIMA wrapper). -/
noncomputable def ExpESDZScoreWrapper.predict_proba (d : ModelDict) (X : Batch) :
    Option (List (ℝ × ℝ)) :=
  (ExpESDZScoreWrapper.aggregate_score d X).map (fun raw =>
    if raw.isEmpty then [(1, 0)]
    else
      let center : ℝ := ((pyFloatOr d.anomaly_threshold 1 : ℚ) : ℝ)
      let scale : ℝ :=
        max (((totalSensorWeight (ExpESDZScoreWrapper.modelsOf d) : ℚ) : ℝ) / 3) (3 / 4)
      raw.map (fun r =>
        let p := clipProb (sigmoid ((r - center) / (scale + ((EPS : ℚ) : ℝ))))
        (1 - p, p)))

/-- HighSensitivityWrapper.predict_proba: scale divisor 4 and floor 0.5. -/
noncomputable def HighSensitivityWrapper.predict_proba (d : ModelDict) (X : Batch) :
    Option (List (ℝ × ℝ)) :=
  (HighSensitivityWrapper.aggregate_score d X).map (fun raw =>
    if raw.isEmpty then [(1, 0)]
    else
      let center : ℝ := ((pyFloatOr d.anomaly_threshold 1 : ℚ) : ℝ)
      let scale : ℝ :=
        max (((totalSensorWeight (HighSensitivityWrapper.modelsOf d) : ℚ) : ℝ) / 4) (1 / 2)
      raw.map (fun r =>
        let p := clipProb (sigmoid ((r - center) / (scale + ((EPS : ℚ) : ℝ))))
        (1 - p, p)))

/-- np.max of a list (the callers guard against empty input; 0 is a
placeholder default on the unreached empty case). -/
noncomputable def listMax : List ℝ → ℝ
  | [] => 0
  | h :: t => t.foldl max h

/-- Column loop body of CUSUMWrapper.predict_proba on a NaN-free column
(np.nanmean is then the column mean and np.nan_to_num the identity): a
column whose global std is below EPS contributes nothing, otherwise its
contribution is the absolute global z-scores capped at 5. -/
noncomputable def cusumColumnScores (series : List ℚ) : List ℝ :=
  let m := listMean series
  let std : ℝ := Real.sqrt ((popVar series : ℚ) : ℝ)
  if std < ((EPS : ℚ) : ℝ) then List.replicate series.length 0
  else series.map (fun x => min (|((x - m : ℚ) : ℝ)| / (std + ((EPS : ℚ) : ℝ))) 5)

/-- CUSUMWrapper.predict_proba: a zero-row batch yields the single default
row [1, 0]; otherwise sum the capped column z-scores, average over
max(number of columns, 1), divide by the batch maximum when positive,
clip to [0, 1] and emit [1 - s, s] rows.  The stored cusum_model object
is never consulted by this method. -/
noncomputable def CUSUMWrapper.predict_proba (X : Batch) : List (ℝ × ℝ) :=
  if X.nrows = 0 then [(1, 0)]
  else
    let summed := X.cols.foldl
      (fun acc c => List.zipWith (fun a b => a + b) acc (cusumColumnScores c.2))
      (List.replicate X.nrows 0)
    let ncols : ℕ := max X.cols.length 1
    let averaged := summed.map (fun v => v / (ncols : ℝ))
    let mx := if 0 < averaged.length then listMax averaged else 1
    let normed := if 0 < mx then averaged.map (fun v => v / mx) else averaged
    let clipped := normed.map (fun v => min (max v 0) 1)
    clipped.map (fun s => (1 - s, s))

/-- CUSUMWrapper.predict: take the anomaly column of predict_proba and
threshold it at float(self.anomaly_threshold or 0.5). -/
noncomputable def CUSUMWrapper.predict (thr : Option ℚ) (X : Batch) : List ℤ :=
  let raw := (CUSUMWrapper.predict_proba X).map (fun p => p.2)
  raw.map (fun r => if ((pyFloatOr thr (1 / 2) : ℚ) : ℝ) ≤ r then 1 else 0)

/-- The zscore_model object branch parameters of ZScoreWrapper (a
ZScoreDynamicThreshold object; only threshold_multiplier is read by the
scoring loop). -/
structure ZScoreModelObj where
  threshold_multiplier : ℚ := 3

/-- Column loop body of the zscore_model branch of
ZScoreWrapper.predict_proba: discrete violations of the absolute global
z-score against threshold_multiplier. -/
noncomputable def zscoreColumnScoresModel (tm : ℚ) (series : List ℚ) : List ℝ :=
  let m := listMean series
  let std : ℝ := Real.sqrt ((popVar series : ℚ) : ℝ)
  if std < ((EPS : ℚ) : ℝ) then List.replicate series.length 0
  else series.map (fun x =>
    if (tm : ℝ) < |((x - m : ℚ) : ℝ)| / (std + ((EPS : ℚ) : ℝ)) then 1 else 0)

/-- Column loop body of the fallback branch of ZScoreWrapper.predict_proba:
absolute global z-scores capped at 5 (same arithmetic as the CUSUM
columns). -/
noncomputable def zscoreColumnScoresFallback (series : List ℚ) : List ℝ :=
  let m := listMean series
  let std : ℝ := Real.sqrt ((popVar series : ℚ) : ℝ)
  if std < ((EPS : ℚ) : ℝ) then List.replicate series.length 0
  else series.map (fun x => min (|((x - m : ℚ) : ℝ)| / (std + ((EPS : ℚ) : ℝ))) 5)

/-- ZScoreWrapper.predict_proba: zero rows yield the default row; the
summed column scores are divided by the column count when positive,
max-normalized, clipped to [0, 1] and emitted as [1 - s, s] rows. -/
noncomputable def ZScoreWrapper.predict_proba (zm : Option ZScoreModelObj) (X : Batch) :
    List (ℝ × ℝ) :=
  if X.nrows = 0 then [(1, 0)]
  else
    let perCol : List ℚ → List ℝ :=
      match zm with
      | some m => zscoreColumnScoresModel m.threshold_multiplier
      | none => zscoreColumnScoresFallback
    let summed := X.cols.foldl
      (fun acc c => List.zipWith (fun a b => a + b) acc (perCol c.2))
      (List.replicate X.nrows 0)
    let divided := if 0 < X.cols.length then summed.map (fun v => v / (X.cols.length : ℝ))
      else summed
    let mx := if 0 < divided.length then listMax divided else 1
    let normed := if 0 < mx then divided.map (fun v => v / mx) else divided
    let clipped := normed.map (fun v => min (max v 0) 1)
    clipped.map (fun s => (1 - s, s))

/-- ZScoreWrapper.predict: anomaly column of predict_proba thresholded at
float(self.anomaly_threshold or 0.5). -/
noncomputable def ZScoreWrapper.predict (zm : Option ZScoreModelObj) (thr : Option ℚ)
    (X : Batch) : List ℤ :=
  let raw := (ZScoreWrapper.predict_proba zm X).map (fun p => p.2)
  raw.map (fun r => if ((pyFloatOr thr (1 / 2) : ℚ) : ℝ) ≤ r then 1 else 0)

/-- State of an EWMAControlChart after construction: smoothing alpha,
control-limit multiplier L, the running mean and variance, and the
initFlag modelling the initialized attribute (the wrapper forces it to
true and backfills mean 0 / variance 1 before use). -/
structure EWMAChart where
  alpha : ℝ
  L : ℝ
  ewma_mean : ℝ
  ewma_variance : ℝ
  initFlag : Bool

/-- Sequential loop of EWMAControlChart.compute_ewma_scores threading the
running (mean, variance) state through the series in order: a NaN step
(modelled none) scores 0.0 and leaves the state untouched; a numeric step
scores min(min(dev / (sqrt(max(var, EPS)) + EPS), 5) / (L + EPS), 1) and
then updates the mean first and the variance from the updated mean. -/
noncomputable def ewmaRun (alpha L : ℝ) : ℝ × ℝ → List (Option ℝ) → List ℝ × (ℝ × ℝ)
  | st, [] => ([], st)
  | st, none :: xs =>
    let r := ewmaRun alpha L st xs
    (0 :: r.1, r.2)
  | st, some v :: xs =>
    let deviation := |v - st.1|
    let std_dev := Real.sqrt (max st.2 ((EPS : ℚ) : ℝ))
    let z := min (deviation / (std_dev + ((EPS : ℚ) : ℝ))) 5
    let score := min (z / (L + ((EPS : ℚ) : ℝ))) 1
    let m2 := alpha * v + (1 - alpha) * st.1
    let v2 := alpha * (v - m2) ^ 2 + (1 - alpha) * st.2
    let r := ewmaRun alpha L (m2, v2) xs
    (score :: r.1, r.2)

/-- EWMAControlChart.compute_ewma_scores: zeros when the chart is not
initialized, else the sequential score list. -/
noncomputable def EWMAControlChart.compute_ewma_scores (c : EWMAChart)
    (X : List (Option ℝ)) : List ℝ :=
  if c.initFlag then (ewmaRun c.alpha c.L (c.ewma_mean, c.ewma_variance) X).1
  else List.replicate X.length 0

/-- EWMAWrapper.predict_proba: zero rows yield the default row; otherwise
sum the per-column EWMA scores (batch columns are NaN-free here, hence
the all-some lift), average over the column count when positive, clip to
[0, 1] and emit [1 - s, s] rows. -/
noncomputable def EWMAWrapper.predict_proba (c : EWMAChart) (X : Batch) : List (ℝ × ℝ) :=
  if X.nrows = 0 then [(1, 0)]
  else
    let summed := X.cols.foldl
      (fun acc col => List.zipWith (fun a b => a + b) acc
        (EWMAControlChart.compute_ewma_scores c (col.2.map (fun q => some ((q : ℚ) : ℝ)))))
      (List.replicate X.nrows 0)
    let averaged := if 0 < X.cols.length then summed.map (fun v => v / (X.cols.length : ℝ))
      else summed
    let clipped := averaged.map (fun v => min (max v 0) 1)
    clipped.map (fun s => (1 - s, s))

/-- EWMAWrapper.predict: anomaly column of predict_proba thresholded at
float(self.anomaly_threshold or 0.5). -/
noncomputable def EWMAWrapper.predict (thr : Option ℚ) (c : EWMAChart) (X : Batch) :
    List ℤ :=
  let raw := (EWMAWrapper.predict_proba c X).map (fun p => p.2)
  raw.map (fun r => if ((pyFloatOr thr (1 / 2) : ℚ) : ℝ) ≤ r then 1 else 0)

/-- np.percentile with the default linear interpolation: on the sorted
data, position h = (n - 1) * q / 100 is split into its floor index and
fractional part and the two neighbouring order statistics are
interpolated. -/
def npPercentile (xs : List ℚ) (q : ℚ) : ℚ :=
  let sorted := xs.mergeSort (fun a b => decide (a ≤ b))
  let n := sorted.length
  if n = 0 then 0
  else
    let h : ℚ := ((n - 1 : ℕ) : ℚ) * q / 100
    let lo : ℕ := h.floor.toNat
    let frac : ℚ := h - (lo : ℚ)
    let a := sorted.getD lo 0
    let b := sorted.getD (min (lo + 1) (n - 1)) 0
    a + frac * (b - a)

/-- Per-sensor parameters stored on a RollingQuantileDetector. -/
structure SensorParams where
  global_lower : Option ℚ := none
  global_upper : Option ℚ := none

/-- A RollingQuantileDetector object as read by the wrapper.  Its optional
predict_proba capability is collapsed into a function returning the
anomaly-score column; a none result models a raised exception, which the
wrapper catches before falling back to the manual implementation. -/
structure RollingModelObj where
  probaFn : Option (Batch → Option (List ℝ)) := none
  sensor_params : List (String × SensorParams) := []
  window_size : ℕ := 2
  lower_quantile : ℚ := 1 / 4
  upper_quantile : ℚ := 3 / 4
  iqr_multiplier : ℚ := 2

/-- Rolling bound computation of RollingQuantileWrapper.manual_predict_proba
for one index: the trailing window slice series[max(0, i - w + 1) : i + 1]
is never empty for i below the series length, but the stored-global else
branch of the source is embedded anyway. -/
def rollingBounds (rm : RollingModelObj) (params : SensorParams) (series : List ℚ)
    (i : ℕ) : ℚ × ℚ :=
  let start := i + 1 - rm.window_size
  let wdata := (series.drop start).take (i + 1 - start)
  if 0 < wdata.length then
    let q25 := npPercentile wdata (rm.lower_quantile * 100)
    let q75 := npPercentile wdata (rm.upper_quantile * 100)
    let iqr := q75 - q25
    (q25 - rm.iqr_multiplier * iqr, q75 + rm.iqr_multiplier * iqr)
  else
    (params.global_lower.getD (series.getD i 0), params.global_upper.getD (series.getD i 0))

/-- Manual scoring loop of RollingQuantileWrapper.manual_predict_proba when
a rolling model object is present: count out-of-bound flags per sensor
that has stored sensor_params, then average over the column count. -/
def RollingQuantileWrapper.manual_scores (rm : RollingModelObj) (X : Batch) : List ℚ :=
  let n := X.nrows
  let summed := X.cols.foldl
    (fun acc c =>
      match (rm.sensor_params.find? (fun p => p.1 == c.1)) with
      | none => acc
      | some kv =>
        let flags := (List.range n).map (fun i =>
          let bounds := rollingBounds rm kv.2 c.2 i
          let v := c.2.getD i 0
          if v < bounds.1 ∨ bounds.2 < v then (1 : ℚ) else 0)
        List.zipWith (fun a b => a + b) acc flags)
    (List.replicate n 0)
  if 0 < X.cols.length then summed.map (fun v => v / (X.cols.length : ℚ)) else summed

/-- RollingQuantileWrapper.simple_anomaly_scores, the fallback when no
rolling model object is stored: capped global z-scores summed over the
columns, averaged over max(column count, 1), then max-normalized. -/
noncomputable def RollingQuantileWrapper.simple_anomaly_scores (X : Batch) : List ℝ :=
  let summed := X.cols.foldl
    (fun acc c => List.zipWith (fun a b => a + b) acc (zscoreColumnScoresFallback c.2))
    (List.replicate X.nrows 0)
  let ncols : ℕ := max X.cols.length 1
  let averaged := summed.map (fun v => v / (ncols : ℝ))
  let mx := if 0 < averaged.length then listMax averaged else 1
  if 0 < mx then averaged.map (fun v => v / mx) else averaged

/-- RollingQuantileWrapper.predict_proba: zero rows yield the default row;
with a stored model object, its predict_proba capability is tried first
and a raised exception falls back to the manual scores; without one the
simple fallback scores are used; the result is clipped to [0, 1] and
emitted as [1 - s, s] rows. -/
noncomputable def RollingQuantileWrapper.predict_proba (rm : Option RollingModelObj)
    (X : Batch) : List (ℝ × ℝ) :=
  if X.nrows = 0 then [(1, 0)]
  else
    let scores : List ℝ :=
      match rm with
      | some m =>
        match m.probaFn with
        | some f =>
          match f X with
          | some probs => probs
          | none => (RollingQuantileWrapper.manual_scores m X).map (fun q => ((q : ℚ) : ℝ))
        | none => (RollingQuantileWrapper.manual_scores m X).map (fun q => ((q : ℚ) : ℝ))
      | none => RollingQuantileWrapper.simple_anomaly_scores X
    let clipped := scores.map (fun v => min (max v 0) 1)
    clipped.map (fun s => (1 - s, s))

/-- RollingQuantileWrapper.predict on a dict-built wrapper: the threshold
expression float(self.anomaly_threshold or self.voting_threshold or 0.3)
reads self.voting_threshold, an attribute that exists only on
object-built wrappers, whenever anomaly_threshold is falsy; that path
raises AttributeError, modelled as none. -/
noncomputable def RollingQuantileWrapper.predict (thr : Option ℚ)
    (rm : Option RollingModelObj) (X : Batch) : Option (List ℤ) :=
  let raw := (RollingQuantileWrapper.predict_proba rm X).map (fun p => p.2)
  match thr with
  | some v =>
    if v = 0 then none
    else some (raw.map (fun r => if (v : ℝ) ≤ r then 1 else 0))
  | none => none

/-- ASCII lowering of a string over its character list, modelling
str.lower() in a form the kernel evaluates. -/
def lowerStr (s : String) : String := String.mk (s.toList.map Char.toLower)

/-- Character-list prefix test (helper for the substring test). -/
def startsWithChars : List Char → List Char → Bool
  | [], _ => true
  | _ :: _, [] => false
  | a :: as, b :: bs => a == b && startsWithChars as bs

/-- Character-list substring test (helper for the substring test). -/
def containsChars (needle : List Char) : List Char → Bool
  | [] => needle.isEmpty
  | b :: bs => startsWithChars needle (b :: bs) || containsChars needle bs

/-- Substring test modelling the Python needle in haystack operator. -/
def strContains (hay needle : String) : Bool :=
  containsChars needle.toList hay.toList

/-- File-name based family inference of model_loader.infer_model_type
(the cascade after the explicit field check); fname is already lowered. -/
def inferFromName (fname : String) : String :=
  if strContains fname ("rolling") then "rolling_quantile"
  else if strContains fname ("ewma") then "ewma"
  else if strContains fname ("cusum") then "cusum"
  else if strContains fname ("zscore") && !(strContains fname ("exp") && strContains fname ("esd"))
    then "zscore"
  else if strContains fname ("exp") && strContains fname ("esd") && strContains fname ("zscore")
    then "exp_esd_zscore"
  else if strContains fname ("holt") || strContains fname ("winters") then "holt_winters"
  else if strContains fname ("high_sensitivity") then "high_sensitivity"
  else "arima"

/-- model_loader.infer_model_type: a truthy explicit model_type field wins
(lowered); an absent or empty field defers to the lowered file name. -/
def infer_model_type (file_name : String) (model_type : Option String) : String :=
  match model_type with
  | some s => if s = "" then inferFromName (lowerStr file_name) else lowerStr s
  | none => inferFromName (lowerStr file_name)

/-- Probability-calibration center as the C3 spec sentence states it, for
comparison with the code: the anomaly threshold when it is set and
positive, otherwise half the total sensor-weight mass. -/
noncomputable def specCenter (thr : Option ℚ) (mass : ℚ) : ℝ :=
  match thr with
  | some v => if 0 < v then (v : ℝ) else (mass : ℝ) / 2
  | none => (mass : ℝ) / 2

/-- ArimaWrapper.predict_proba as the C3 claim words it, for its
refutation: identical to the code except for the center rule. -/
noncomputable def specPredictProbaArima (d : ModelDict) (X : Batch) :
    Option (List (ℝ × ℝ)) :=
  (ArimaWrapper.aggregate_score d X).map (fun raw =>
    if raw.isEmpty then [(1, 0)]
    else
      let mass := totalSensorWeight (ArimaWrapper.modelsOf d)
      let center := specCenter d.anomaly_threshold mass
      let scale : ℝ := max (((mass : ℚ) : ℝ) / 3) (3 / 4)
      raw.map (fun r =>
        let p := clipProb (sigmoid ((r - center) / (scale + ((EPS : ℚ) : ℝ))))
        (1 - p, p)))

/-- Center rule the code actually implements,
float(self.anomaly_threshold or 1.0), stated on its own for the amended
C3 claim. -/
noncomputable def amendedCenter (thr : Option ℚ) : ℝ := ((pyFloatOr thr 1 : ℚ) : ℝ)

/-- One calibrated probability row [1 - p, p] with
p = clip(sigmoid((raw - center) / (scale + EPS))), stated on its own for
the amended C3 claim. -/
noncomputable def calibratedRow (center scale r : ℝ) : ℝ × ℝ :=
  let p := clipProb (sigmoid ((r - center) / (scale + ((EPS : ℚ) : ℝ))))
  (1 - p, p)

/-- An entry is benign for the dominance comparison of the C4 claim when
it is either non-dict (skipped by both policies) or a dict entry with no
fitted forecaster, a nonempty last_values buffer and nonnegative
importance, so that the ARIMA and high-sensitivity forecast providers
produce the identical constant forecast. -/
def SharedForecastVal : ModelVal → Prop
  | .junk => True
  | .entry e =>
    e.fitted_model = none ∧ e.fitted_path = none ∧ e.last_values ≠ [] ∧ 0 ≤ e.importance

/-- An entry is excluded from weighting and aggregation when it is
non-dict or its target_sensor is missing or empty. -/
def ExcludedVal : ModelVal → Prop
  | .junk => True
  | .entry e => strTruthy e.target_sensor = none

/-- Concrete entry targeting sensor P1 with z_threshold 0 and the
constant-zero last_values forecast. -/
def entryP1 : ForecastEntry :=
  { target_sensor := some "P1", z_threshold := 0, last_values := [0] }

/-- Concrete artifact storing its forecast map only under the legacy
arima_models key. -/
def legacyDict : ModelDict :=
  { arima_models := some [("m1", ModelVal.entry entryP1)] }

/-- Concrete artifact storing the same single entry under forecast_models. -/
def ensembleDict : ModelDict :=
  { forecast_models := some [("m1", ModelVal.entry entryP1)] }

/-- Three-row batch with the single sensor column P1 = [3, -3, 0]. -/
def batchP1 : Batch := { nrows := 3, cols := [("P1", [3, -3, 0])] }

/-- Concrete entry whose constant forecast matches a constant column. -/
def entryConst : ForecastEntry :=
  { target_sensor := some "P1", z_threshold := 3, last_values := [5] }

/-- Concrete artifact with an explicitly stored zero anomaly threshold. -/
def zeroThrDict : ModelDict :=
  { forecast_models := some [("m1", ModelVal.entry entryConst)],
    anomaly_threshold := some 0 }

/-- Two-row constant batch P1 = [5, 5]. -/
def batchConst : Batch := { nrows := 2, cols := [("P1", [5, 5])] }

/-- Entry with only a window-size 2 moving-average fallback. -/
def entryWin2 : ForecastEntry := { window_size := 2 }

/-- Entry with only a window-size 5 moving-average fallback. -/
def entryWin5 : ForecastEntry := { window_size := 5 }

/-- The zero-row, zero-column batch. -/
def emptyBatch : Batch := { nrows := 0, cols := [] }

/-- A concrete initialized EWMA chart. -/
noncomputable def chart0 : EWMAChart :=
  { alpha := 1 / 2, L := 3, ewma_mean := 0, ewma_variance := 1, initFlag := true }

/-- Entry with a falsy (empty-string) target sensor. -/
def entryNoTarget : ForecastEntry := { target_sensor := some "", last_values := [1] }

/-- ensembleDict with an excluded (empty-target) entry prepended. -/
def paddedDict : ModelDict :=
  { forecast_models :=
      some [("m0", ModelVal.entry entryNoTarget), ("m1", ModelVal.entry entryP1)] }

/-! Helper lemmas. -/

theorem windowForecast_none_of_lt {w : ℕ} {series : List ℚ} (h : w < series.length) :
    windowForecast w series = none := by
  unfold windowForecast
  rw [if_pos h, if_neg]
  simp only [List.length_map, List.length_range]
  omega

theorem windowForecast_short {w : ℕ} {series : List ℚ} (h : series.length ≤ w) :
    windowForecast w series =
      some ((List.range series.length).map
        (fun i => if i = 0 then series.headI else csum series i / i)) := by
  unfold windowForecast
  rw [if_neg (by omega), min_eq_right h]

theorem dampen_lt_dampen_iff (a b : ℝ) : dampen a < dampen b ↔ a < b := by
  unfold dampen
  rw [sub_lt_sub_iff_left, Real.exp_lt_exp, neg_lt_neg_iff]

theorem expViol_eq_baselineViol (z : ℝ) (zth : ℚ) : expViol z zth = baselineViol z zth := by
  unfold expViol baselineViol
  rw [if_congr (dampen_lt_dampen_iff _ _) rfl rfl]

theorem esd_forecast_eq_hw (e : ForecastEntry) (s : List ℚ) :
    ExpESDZScoreWrapper.forecast_fallback e s = HoltWintersWrapper.fallback_forecast e s := rfl

theorem esd_aggregate_eq_hw (d : ModelDict) (X : Batch) :
    ExpESDZScoreWrapper.aggregate_score d X = HoltWintersWrapper.aggregate_score d X := by
  unfold ExpESDZScoreWrapper.aggregate_score HoltWintersWrapper.aggregate_score
  have hv : expViol = baselineViol := funext fun z => funext fun zth => expViol_eq_baselineViol z zth
  rw [hv]
  rfl

theorem entryContribution_excluded
    (fc : ForecastEntry → List ℚ → Option (List ℚ)) (viol : ℝ → ℚ → ℝ) (mult : ℚ)
    (w : String → ℚ) (X : Batch) {v : ModelVal} (hv : ExcludedVal v) :
    entryContribution fc viol mult w X v = .skipped := by
  cases v with
  | junk => rfl
  | entry e =>
    simp only [ExcludedVal] at hv
    simp [entryContribution, hv]

theorem eps_real_eq : ((EPS : ℚ) : ℝ) = 1 / 10 ^ 12 := by
  norm_num [EPS]

theorem one_le_sqrt_six : (1 : ℝ) ≤ Real.sqrt 6 := by
  rw [show (1 : ℝ) = Real.sqrt 1 from Real.sqrt_one.symm]
  exact Real.sqrt_le_sqrt (by norm_num)

theorem sqrt_six_not_lt_eps : ¬ (Real.sqrt ((6 : ℚ) : ℝ) < ((EPS : ℚ) : ℝ)) := by
  rw [eps_real_eq]
  norm_num
  exact le_trans (by norm_num) one_le_sqrt_six

/-- Evaluation of the ARIMA aggregate on the legacy artifact: the single
arima_models entry (target P1, threshold 0, constant-zero forecast)
produces violations [1, 1, 0] on the column [3, -3, 0]. -/
theorem arima_aggregate_legacy :
    ArimaWrapper.aggregate_score legacyDict batchP1 = some [1, 1, 0] := by
  have hm : ArimaWrapper.modelsOf legacyDict = [("m1", ModelVal.entry entryP1)] := rfl
  have hfc : ArimaWrapper.forecast_series entryP1 [3, -3, 0] = some [0, 0, 0] := by
    unfold ArimaWrapper.forecast_series
    simp [ForecastEntry.fittedResult, ForecastEntry.pathResult, entryP1, List.replicate]
  have hvar : popVar [3, -3, 0] = 6 := by
    norm_num [popVar, listMean]
  have hstep : entryContribution ArimaWrapper.forecast_series baselineViol 1
      (sensorWeight [("m1", ModelVal.entry entryP1)]) batchP1 (ModelVal.entry entryP1) =
      .contrib [1, 1, 0] := by
    unfold entryContribution
    have ht : strTruthy entryP1.target_sensor = some "P1" := rfl
    have hcol : batchP1.col? "P1" = some [3, -3, 0] := rfl
    simp only [ht, hcol, hfc]
    have hlen : ¬ (([0, 0, 0] : List ℚ).length ≠ ([3, -3, 0] : List ℚ).length) := by decide
    rw [if_neg hlen]
    have hres : List.zipWith (fun a b => a - b) ([3, -3, 0] : List ℚ) [0, 0, 0] =
        [3, -3, 0] := by
      simp only [List.zipWith_cons_cons, List.zipWith_nil_right]
      norm_num
    rw [hres, hvar, if_neg sqrt_six_not_lt_eps]
    have hden : (0 : ℝ) < Real.sqrt ((6 : ℚ) : ℝ) + ((EPS : ℚ) : ℝ) := by
      rw [eps_real_eq]
      positivity
    have htg : targetsOf [("m1", ModelVal.entry entryP1)] = ["P1"] := rfl
    have hw : sensorWeight [("m1", ModelVal.entry entryP1)] "P1" = 1 := by
      unfold sensorWeight
      rw [htg]
      norm_num [List.count_singleton]
    have hpos : ∀ r : ℚ, r ≠ 0 →
        baselineViol (|(r : ℝ)| / (Real.sqrt ((6 : ℚ) : ℝ) + ((EPS : ℚ) : ℝ)))
          entryP1.z_threshold = 1 := by
      intro r hr
      unfold baselineViol
      rw [if_pos]
      show ((entryP1.z_threshold : ℚ) : ℝ) < _
      have : (0 : ℝ) < |(r : ℝ)| := by
        simp [abs_pos, hr]
      calc ((entryP1.z_threshold : ℚ) : ℝ) = 0 := by norm_num [entryP1]
        _ < |(r : ℝ)| / (Real.sqrt ((6 : ℚ) : ℝ) + ((EPS : ℚ) : ℝ)) := div_pos this hden
    have hzero :
        baselineViol (|((0 : ℚ) : ℝ)| / (Real.sqrt ((6 : ℚ) : ℝ) + ((EPS : ℚ) : ℝ)))
          entryP1.z_threshold = 0 := by
      unfold baselineViol
      rw [if_neg]
      show ¬ ((entryP1.z_threshold : ℚ) : ℝ) < _
      norm_num [entryP1]
    simp only [List.map_cons, List.map_nil]
    rw [hpos 3 (by norm_num), hpos (-3) (by norm_num), hzero, hw]
    norm_num [entryP1]
  unfold ArimaWrapper.aggregate_score ensembleAggregate
  rw [hm]
  rw [if_neg (by norm_num [batchP1])]
  show aggregateLoop _ _ _ = _
  rw [aggregateLoop, hstep]
  show aggregateLoop _ _ [] = _
  rw [aggregateLoop]
  norm_num [batchP1, List.replicate]

/-- The Holt-Winters wrapper sees no entries in the legacy artifact. -/
theorem hw_aggregate_legacy :
    HoltWintersWrapper.aggregate_score legacyDict batchP1 = some [0, 0, 0] := by
  unfold HoltWintersWrapper.aggregate_score ensembleAggregate
  rw [if_neg (by norm_num [batchP1])]
  show aggregateLoop _ _ [] = _
  rw [aggregateLoop]
  norm_num [batchP1, List.replicate]

/-- The high-sensitivity wrapper sees no entries in the legacy artifact. -/
theorem hs_aggregate_legacy :
    HighSensitivityWrapper.aggregate_score legacyDict batchP1 = some [0, 0, 0] := by
  unfold HighSensitivityWrapper.aggregate_score ensembleAggregate
  rw [if_neg (by norm_num [batchP1])]
  show aggregateLoop _ _ [] = _
  rw [aggregateLoop]
  norm_num [batchP1, List.replicate]

theorem ensembleAggregate_nil (fc : ForecastEntry → List ℚ → Option (List ℚ))
    (viol : ℝ → ℚ → ℝ) (mult : ℚ) (X : Batch) :
    ensembleAggregate fc viol mult [] X = some (List.replicate X.nrows 0) := by
  unfold ensembleAggregate
  by_cases hn : X.nrows = 0
  · rw [if_pos hn, hn]
    rfl
  · rw [if_neg hn]
    rfl

theorem sensorWeight_nonneg (M : List (String × ModelVal)) (s : String) :
    0 ≤ sensorWeight M s := by
  unfold sensorWeight
  dsimp only
  split
  · norm_num
  · positivity

/-- With no fitted forecaster and a nonempty last_values buffer, the
ARIMA forecast provider returns exactly the high-sensitivity simple
forecast (the constant last recorded value, or the empty series). -/
theorem arima_forecast_eq_simple (e : ForecastEntry) (series : List ℚ)
    (hf : e.fitted_model = none) (hp : e.fitted_path = none)
    (hl : e.last_values ≠ []) :
    ArimaWrapper.forecast_series e series =
      some (HighSensitivityWrapper.forecast_simple e series) := by
  have hne : ¬ e.last_values.isEmpty := by
    simpa [List.isEmpty_iff] using hl
  unfold ArimaWrapper.forecast_series HighSensitivityWrapper.forecast_simple
  by_cases hn : series.length = 0
  · rw [if_pos hn]
    simp [hne, hn]
  · rw [if_neg hn]
    simp [ForecastEntry.fittedResult, ForecastEntry.pathResult, hf, hp, hne]

theorem forall2_le_map_map {f g : ℚ → ℝ} (l : List ℚ) (h : ∀ x ∈ l, f x ≤ g x) :
    List.Forall₂ (fun a b => a ≤ b) (l.map f) (l.map g) := by
  induction l with
  | nil => exact List.Forall₂.nil
  | cons x xs ih =>
    exact List.Forall₂.cons (h x (List.mem_cons_self x xs))
      (ih fun y hy => h y (List.mem_cons_of_mem x hy))

theorem forall2_le_zipWith_add {a b c d : List ℝ}
    (h1 : List.Forall₂ (fun x y => x ≤ y) a b)
    (h2 : List.Forall₂ (fun x y => x ≤ y) c d) :
    List.Forall₂ (fun x y => x ≤ y)
      (List.zipWith (fun x y => x + y) a c) (List.zipWith (fun x y => x + y) b d) := by
  induction h1 generalizing c d with
  | nil => exact List.Forall₂.nil
  | cons hab h1 ih =>
    cases h2 with
    | nil => exact List.Forall₂.nil
    | cons hcd h2 => exact List.Forall₂.cons (add_le_add hab hcd) (ih h2)

/-- Each per-step contribution of the baseline violation scorer is bounded
by the magnified high-sensitivity contribution under the same nonnegative
weight-importance product. -/
theorem viol_contrib_le (z : ℝ) (hz : 0 ≤ z) (zth wimp : ℚ) (hw : 0 ≤ wimp) :
    baselineViol z zth * ((wimp * 1 : ℚ) : ℝ) ≤
      hsViol z zth * ((wimp * (5 / 4) : ℚ) : ℝ) := by
  unfold baselineViol hsViol
  by_cases hb : (zth : ℝ) < z
  · rw [if_pos hb, if_pos]
    · have hwr : (0 : ℝ) ≤ ((wimp : ℚ) : ℝ) := by exact_mod_cast hw
      push_cast
      nlinarith
    · push_cast
      by_cases hth : (0 : ℝ) ≤ (zth : ℝ)
      · nlinarith
      · nlinarith
  · rw [if_neg hb]
    have h1 : (0 : ℝ) ≤ (if ((zth * (17 / 20) : ℚ) : ℝ) < z then (1 : ℝ) else 0) := by
      split <;> norm_num
    have h2 : (0 : ℝ) ≤ ((wimp * (5 / 4) : ℚ) : ℝ) := by
      have hwr : (0 : ℝ) ≤ ((wimp : ℚ) : ℝ) := by exact_mod_cast hw
      push_cast
      nlinarith
    nlinarith

/-- Evaluation of one aggregation-loop iteration once the target, the
column and the forecast are resolved. -/
theorem entryContribution_eval
    (fcof : ForecastEntry → List ℚ → Option (List ℚ)) (viol : ℝ → ℚ → ℝ) (mult : ℚ)
    (w : String → ℚ) (X : Batch) (e : ForecastEntry) (s : String)
    (series fc0 : List ℚ)
    (ht : strTruthy e.target_sensor = some s) (hcol : X.col? s = some series)
    (hfc : fcof e series = some fc0) :
    entryContribution fcof viol mult w X (.entry e) =
      if Real.sqrt ((popVar (List.zipWith (fun a b => a - b) series
          (if fc0.length ≠ series.length then npResize fc0 series.length else fc0)) : ℚ) : ℝ) <
        ((EPS : ℚ) : ℝ)
      then .skipped
      else .contrib (((List.zipWith (fun a b => a - b) series
          (if fc0.length ≠ series.length then npResize fc0 series.length else fc0)).map
          (fun (r : ℚ) => viol (|((r : ℚ) : ℝ)| /
            (Real.sqrt ((popVar (List.zipWith (fun a b => a - b) series
              (if fc0.length ≠ series.length then npResize fc0 series.length else fc0)) : ℚ) : ℝ) +
             ((EPS : ℚ) : ℝ))) e.z_threshold)).map
          (fun x => x * ((w s * e.importance * mult : ℚ) : ℝ))) := by
  unfold entryContribution
  simp only [ht, hcol, hfc]

/-- On an artifact entry meeting the shared-forecast conditions, the
ARIMA and high-sensitivity loop iterations either both skip or both
contribute, and in the latter case the ARIMA contribution is dominated
row-wise. -/
theorem shared_entry_outcomes (w : String → ℚ) (hw : ∀ s, 0 ≤ w s) (X : Batch)
    (v : ModelVal) (hv : SharedForecastVal v) :
    (entryContribution ArimaWrapper.forecast_series baselineViol 1 w X v = .skipped ∧
     entryContribution (fun e s => some (HighSensitivityWrapper.forecast_simple e s))
       hsViol (5 / 4) w X v = .skipped) ∨
    (∃ c1 c2,
      entryContribution ArimaWrapper.forecast_series baselineViol 1 w X v = .contrib c1 ∧
      entryContribution (fun e s => some (HighSensitivityWrapper.forecast_simple e s))
        hsViol (5 / 4) w X v = .contrib c2 ∧
      List.Forall₂ (fun a b => a ≤ b) c1 c2) := by
  cases v with
  | junk => exact Or.inl ⟨rfl, rfl⟩
  | entry e =>
    obtain ⟨hf, hp, hl, himp⟩ := hv
    cases ht : strTruthy e.target_sensor with
    | none =>
      refine Or.inl ⟨?_, ?_⟩ <;> (unfold entryContribution; simp only [ht])
    | some s =>
      cases hcol : X.col? s with
      | none =>
        refine Or.inl ⟨?_, ?_⟩ <;> (unfold entryContribution; simp only [ht, hcol])
      | some series =>
        rw [entryContribution_eval ArimaWrapper.forecast_series baselineViol 1 w X e s
          series (HighSensitivityWrapper.forecast_simple e series) ht hcol
          (arima_forecast_eq_simple e series hf hp hl)]
        rw [entryContribution_eval (fun e s => some (HighSensitivityWrapper.forecast_simple e s))
          hsViol (5 / 4) w X e s series (HighSensitivityWrapper.forecast_simple e series)
          ht hcol rfl]
        by_cases hstd : Real.sqrt ((popVar (List.zipWith (fun a b => a - b) series
            (if (HighSensitivityWrapper.forecast_simple e series).length ≠ series.length
              then npResize (HighSensitivityWrapper.forecast_simple e series) series.length
              else HighSensitivityWrapper.forecast_simple e series)) : ℚ) : ℝ) <
            ((EPS : ℚ) : ℝ)
        · rw [if_pos hstd, if_pos hstd]
          exact Or.inl ⟨rfl, rfl⟩
        · rw [if_neg hstd, if_neg hstd]
          refine Or.inr ⟨_, _, rfl, rfl, ?_⟩
          rw [List.map_map, List.map_map]
          refine forall2_le_map_map _ (fun r _ => ?_)
          have hznn : (0 : ℝ) ≤ |((r : ℚ) : ℝ)| /
              (Real.sqrt ((popVar (List.zipWith (fun a b => a - b) series
                (if (HighSensitivityWrapper.forecast_simple e series).length ≠ series.length
                  then npResize (HighSensitivityWrapper.forecast_simple e series) series.length
                  else HighSensitivityWrapper.forecast_simple e series)) : ℚ) : ℝ) +
                ((EPS : ℚ) : ℝ)) := by
            have heps : (0 : ℝ) < ((EPS : ℚ) : ℝ) := by
              rw [eps_real_eq]
              norm_num
            positivity
          simpa [Function.comp] using
            viol_contrib_le _ hznn e.z_threshold (w s * e.importance)
              (mul_nonneg (hw s) himp)

/-- Aligned accumulation: two loops whose iterations pairwise skip
together or contribute dominated vectors yield dominated totals. -/
theorem aggregateLoop_forall2_le (step1 step2 : ModelVal → EntryOutcome)
    (models : List (String × ModelVal))
    (hstep : ∀ kv ∈ models,
      (step1 kv.2 = .skipped ∧ step2 kv.2 = .skipped) ∨
      (∃ c1 c2, step1 kv.2 = .contrib c1 ∧ step2 kv.2 = .contrib c2 ∧
        List.Forall₂ (fun a b => a ≤ b) c1 c2))
    (acc1 acc2 : List ℝ) (hacc : List.Forall₂ (fun a b => a ≤ b) acc1 acc2) :
    ∃ r1 r2, aggregateLoop step1 acc1 models = some r1 ∧
      aggregateLoop step2 acc2 models = some r2 ∧
      List.Forall₂ (fun a b => a ≤ b) r1 r2 := by
  induction models generalizing acc1 acc2 with
  | nil => exact ⟨acc1, acc2, rfl, rfl, hacc⟩
  | cons kv rest ih =>
    rcases hstep kv (List.mem_cons_self kv rest) with ⟨h1, h2⟩ | ⟨c1, c2, h1, h2, hc⟩
    · rw [aggregateLoop, h1]
      rw [show aggregateLoop step2 acc2 (kv :: rest) =
        aggregateLoop step2 acc2 rest from by rw [aggregateLoop, h2]]
      exact ih (fun kv2 hkv2 => hstep kv2 (List.mem_cons_of_mem kv hkv2)) acc1 acc2 hacc
    · rw [aggregateLoop, h1]
      rw [show aggregateLoop step2 acc2 (kv :: rest) =
        aggregateLoop step2 (List.zipWith (fun a b => a + b) acc2 c2) rest from by
          rw [aggregateLoop, h2]]
      exact ih (fun kv2 hkv2 => hstep kv2 (List.mem_cons_of_mem kv hkv2)) _ _
        (forall2_le_zipWith_add hacc hc)

theorem sigmoid_lt_sigmoid {a b : ℝ} (h : a < b) : sigmoid a < sigmoid b := by
  unfold sigmoid
  have h1 : (0 : ℝ) < 1 + Real.exp (-a) := by positivity
  have h2 : (0 : ℝ) < 1 + Real.exp (-b) := by positivity
  rw [div_lt_div_iff₀ h1 h2]
  have : Real.exp (-b) < Real.exp (-a) := Real.exp_lt_exp.mpr (by linarith)
  linarith

theorem sigmoid_lt_half {x : ℝ} (hx : x < 0) : sigmoid x < 1 / 2 := by
  unfold sigmoid
  have hone : (1 : ℝ) < Real.exp (-x) := by
    rw [show (1 : ℝ) = Real.exp 0 from Real.exp_zero.symm]
    exact Real.exp_lt_exp.mpr (by linarith)
  have h1 : (0 : ℝ) < 1 + Real.exp (-x) := by positivity
  rw [div_lt_div_iff₀ h1 (by norm_num)]
  linarith

theorem sigmoid_ge_of_ge {x : ℝ} (hx : (-2 : ℝ) ≤ x) : 1 / 10 ^ 5 ≤ sigmoid x := by
  unfold sigmoid
  have hexp1 : Real.exp 1 < 2.7182818286 := Real.exp_one_lt_d9
  have hexp2 : Real.exp 2 ≤ 8 := by
    have h2 : Real.exp 2 = Real.exp 1 * Real.exp 1 := by
      rw [show (2 : ℝ) = 1 + 1 by norm_num, Real.exp_add]
    have hpos : (0 : ℝ) < Real.exp 1 := Real.exp_pos 1
    nlinarith
  have hexp : Real.exp (-x) ≤ 8 :=
    le_trans (Real.exp_le_exp.mpr (by linarith)) hexp2
  have h1 : (0 : ℝ) < 1 + Real.exp (-x) := by positivity
  rw [div_le_div_iff₀ (by norm_num) h1]
  linarith

theorem clipProb_eq_self {p : ℝ} (h1 : 1 / 10 ^ 5 ≤ p) (h2 : p ≤ 1 - 1 / 10 ^ 5) :
    clipProb p = p := by
  unfold clipProb
  rw [max_eq_left h1, min_eq_left h2]

/-- Evaluation of the ARIMA aggregate on the zero-threshold artifact: the
constant column matches the constant forecast exactly, the residual
standard deviation is zero, the entry is skipped, and the raw scores are
all zero. -/
theorem arima_aggregate_const :
    ArimaWrapper.aggregate_score zeroThrDict batchConst = some [0, 0] := by
  have hm : ArimaWrapper.modelsOf zeroThrDict = [("m1", ModelVal.entry entryConst)] := rfl
  have hfc : ArimaWrapper.forecast_series entryConst [5, 5] = some [5, 5] := by
    unfold ArimaWrapper.forecast_series
    simp [ForecastEntry.fittedResult, ForecastEntry.pathResult, entryConst, List.replicate]
  have hres : List.zipWith (fun a b => a - b) ([5, 5] : List ℚ) [5, 5] = [0, 0] := by
    simp only [List.zipWith_cons_cons, List.zipWith_nil_right]
    norm_num
  have hvar : popVar [0, 0] = 0 := by
    norm_num [popVar, listMean]
  have hstep : entryContribution ArimaWrapper.forecast_series baselineViol 1
      (sensorWeight [("m1", ModelVal.entry entryConst)]) batchConst
      (ModelVal.entry entryConst) = .skipped := by
    rw [entryContribution_eval ArimaWrapper.forecast_series baselineViol 1
      (sensorWeight [("m1", ModelVal.entry entryConst)]) batchConst entryConst "P1"
      [5, 5] [5, 5] rfl rfl hfc]
    rw [if_pos]
    have hlen : ¬ (([5, 5] : List ℚ).length ≠ ([5, 5] : List ℚ).length) := by decide
    rw [if_neg hlen, hres, hvar]
    rw [show (((0 : ℚ) : ℝ)) = (0 : ℝ) by norm_num, Real.sqrt_zero, eps_real_eq]
    norm_num
  unfold ArimaWrapper.aggregate_score ensembleAggregate
  rw [hm]
  rw [if_neg (by norm_num [batchConst])]
  show aggregateLoop _ _ _ = _
  rw [aggregateLoop, hstep]
  show aggregateLoop _ _ [] = _
  rw [aggregateLoop]
  norm_num [batchConst, List.replicate]

theorem total_weight_zeroThr :
    totalSensorWeight (ArimaWrapper.modelsOf zeroThrDict) = 1 := by
  have htg : targetsOf (ArimaWrapper.modelsOf zeroThrDict) = ["P1"] := rfl
  unfold totalSensorWeight
  rw [htg]
  rw [show (["P1"] : List String).dedup = ["P1"] from
    List.dedup_cons_of_not_mem (by simp)]
  norm_num [List.count_singleton]

/-! Theorems for the claims. -/

/-- C1: the claim says the moving-average fallback of the forecast
provider (window_size w > 1, no usable fitted forecaster, no last_values)
returns, for any series longer than the window, a same-length forecast
without raising.  In fact the source computes one windowed mean too many
(np.arange(window, n + 1)) and the assignment into out[window:] always
raises ValueError, in every wrapper carrying this fallback; the spec
describes the clearly intended moving average, so this is a code bug.
The theorem evaluates the embedded code: the call raises (returns none)
whenever the series is longer than the window. -/
theorem window_fallback_raises_on_long_series
    (e : ForecastEntry) (series : List ℚ)
    (hf : e.fitted_model = none) (hp : e.fitted_path = none)
    (hl : e.last_values = []) (hw : 1 < e.window_size)
    (hn : e.window_size < series.length) :
    ArimaWrapper.forecast_series e series = none ∧
    HoltWintersWrapper.fallback_forecast e series = none ∧
    ExpESDZScoreWrapper.forecast_fallback e series = none := by
  have hne : series.length ≠ 0 := by omega
  have hwf := windowForecast_none_of_lt hn
  refine ⟨?_, ?_, ?_⟩
  · unfold ArimaWrapper.forecast_series
    rw [if_neg hne]
    simp [ForecastEntry.fittedResult, ForecastEntry.pathResult, hf, hp, hl, hw, hwf]
  · unfold HoltWintersWrapper.fallback_forecast
    simp [hl, hw, hwf]
  · unfold ExpESDZScoreWrapper.forecast_fallback
    simp [hl, hw, hwf]

/-- Witness for C1 at the concrete failing input: window 2, series of
length 3. -/
theorem window_fallback_raises_on_long_series_witness :
    ArimaWrapper.forecast_series entryWin2 [1, 2, 3] = none ∧
    HoltWintersWrapper.fallback_forecast entryWin2 [1, 2, 3] = none ∧
    ExpESDZScoreWrapper.forecast_fallback entryWin2 [1, 2, 3] = none :=
  window_fallback_raises_on_long_series entryWin2 [1, 2, 3] rfl rfl rfl
    (by decide) (by decide)

/-- C9: for a series no longer than the window (and at least one value),
the moving-average fallback returns the observed first value at index 0
and the mean of the first i observed values at each later index i. -/
theorem short_series_window_forecast
    (e : ForecastEntry) (series : List ℚ)
    (hf : e.fitted_model = none) (hp : e.fitted_path = none)
    (hl : e.last_values = []) (hw : 1 < e.window_size)
    (hne : series ≠ []) (hn : series.length ≤ e.window_size) :
    ArimaWrapper.forecast_series e series =
      some ((List.range series.length).map
        (fun i => if i = 0 then series.headI else (series.take i).sum / i)) := by
  have hne0 : series.length ≠ 0 := by
    simpa [List.length_eq_zero] using hne
  unfold ArimaWrapper.forecast_series
  rw [if_neg hne0]
  simp [ForecastEntry.fittedResult, ForecastEntry.pathResult, hf, hp, hl, hw,
    windowForecast_short hn, csum]

/-- Witness for C9 at window 5 and the two-value series [2, 4]: the
forecast is [2, 2]. -/
theorem short_series_window_forecast_witness :
    ArimaWrapper.forecast_series entryWin5 [2, 4] =
      some ((List.range ([2, 4] : List ℚ).length).map
        (fun i => if i = 0 then ([2, 4] : List ℚ).headI
          else (([2, 4] : List ℚ).take i).sum / i)) :=
  short_series_window_forecast entryWin5 [2, 4] rfl rfl rfl (by decide)
    (by decide) (by decide)

/-- C10: a NaN step in the EWMA score loop scores exactly 0 and passes the
running (mean, variance) state through unchanged: the run on
pre ++ NaN :: post is the run on pre, then a 0 score, then the run on post
started from the state reached after pre.  The second part restates this
for EWMAControlChart.compute_ewma_scores on an initialized chart. -/
theorem ewma_nan_skips_state
    (alpha L : ℝ) (st : ℝ × ℝ) (pre post : List (Option ℝ)) (c : EWMAChart) :
    ewmaRun alpha L st (pre ++ none :: post) =
      ((ewmaRun alpha L st pre).1 ++
        0 :: (ewmaRun alpha L (ewmaRun alpha L st pre).2 post).1,
       (ewmaRun alpha L (ewmaRun alpha L st pre).2 post).2) ∧
    (c.initFlag = true →
      EWMAControlChart.compute_ewma_scores c (pre ++ none :: post) =
        (ewmaRun c.alpha c.L (c.ewma_mean, c.ewma_variance) pre).1 ++
          0 :: (ewmaRun c.alpha c.L
            (ewmaRun c.alpha c.L (c.ewma_mean, c.ewma_variance) pre).2 post).1) := by
  have main : ∀ (st : ℝ × ℝ) (pre : List (Option ℝ)),
      ewmaRun alpha L st (pre ++ none :: post) =
        ((ewmaRun alpha L st pre).1 ++
          0 :: (ewmaRun alpha L (ewmaRun alpha L st pre).2 post).1,
         (ewmaRun alpha L (ewmaRun alpha L st pre).2 post).2) := by
    intro st pre
    induction pre generalizing st with
    | nil => simp [ewmaRun]
    | cons x xs ih =>
      cases x with
      | none => simp [ewmaRun, ih]
      | some v => simp [ewmaRun, ih]
  refine ⟨main st pre, fun hc => ?_⟩
  have mainc : ∀ (st2 : ℝ × ℝ) (pre2 : List (Option ℝ)),
      ewmaRun c.alpha c.L st2 (pre2 ++ none :: post) =
        ((ewmaRun c.alpha c.L st2 pre2).1 ++
          0 :: (ewmaRun c.alpha c.L (ewmaRun c.alpha c.L st2 pre2).2 post).1,
         (ewmaRun c.alpha c.L (ewmaRun c.alpha c.L st2 pre2).2 post).2) := by
    intro st2 pre2
    induction pre2 generalizing st2 with
    | nil => simp [ewmaRun]
    | cons x xs ih =>
      cases x with
      | none => simp [ewmaRun, ih]
      | some v => simp [ewmaRun, ih]
  unfold EWMAControlChart.compute_ewma_scores
  rw [if_pos hc, mainc]

/-- Witness for C10 on the concrete chart chart0 and the series
[some 1, NaN, some 2]. -/
theorem ewma_nan_skips_state_witness :
    chart0.initFlag = true ∧
    EWMAControlChart.compute_ewma_scores chart0 ([some 1] ++ none :: [some 2]) =
      (ewmaRun chart0.alpha chart0.L (chart0.ewma_mean, chart0.ewma_variance) [some 1]).1 ++
        0 :: (ewmaRun chart0.alpha chart0.L
          (ewmaRun chart0.alpha chart0.L
            (chart0.ewma_mean, chart0.ewma_variance) [some 1]).2 [some 2]).1 :=
  ⟨rfl, (ewma_nan_skips_state chart0.alpha chart0.L
      (chart0.ewma_mean, chart0.ewma_variance) [some 1] [some 2] chart0).2 rfl⟩

/-- C8: model-family classification is total and deterministic (it is a
function), a truthy explicit model_type always wins, and otherwise the
family follows the file-name substring cascade in source order: rolling,
ewma, cusum, zscore alone, exp+esd+zscore combined, holt/winters,
high_sensitivity, defaulting to the ARIMA family. -/
theorem infer_model_type_classification (fn s : String) :
    (s ≠ "" → infer_model_type fn (some s) = lowerStr s) ∧
    (strContains (lowerStr fn) ("rolling") = true →
      infer_model_type fn none = "rolling_quantile") ∧
    (strContains (lowerStr fn) ("rolling") = false →
      strContains (lowerStr fn) ("ewma") = true →
      infer_model_type fn none = "ewma") ∧
    (strContains (lowerStr fn) ("rolling") = false →
      strContains (lowerStr fn) ("ewma") = false →
      strContains (lowerStr fn) ("cusum") = true →
      infer_model_type fn none = "cusum") ∧
    (strContains (lowerStr fn) ("rolling") = false →
      strContains (lowerStr fn) ("ewma") = false →
      strContains (lowerStr fn) ("cusum") = false →
      strContains (lowerStr fn) ("zscore") = true →
      (strContains (lowerStr fn) ("exp") && strContains (lowerStr fn) ("esd")) = false →
      infer_model_type fn none = "zscore") ∧
    (strContains (lowerStr fn) ("rolling") = false →
      strContains (lowerStr fn) ("ewma") = false →
      strContains (lowerStr fn) ("cusum") = false →
      strContains (lowerStr fn) ("zscore") = true →
      strContains (lowerStr fn) ("exp") = true →
      strContains (lowerStr fn) ("esd") = true →
      infer_model_type fn none = "exp_esd_zscore") ∧
    (strContains (lowerStr fn) ("rolling") = false →
      strContains (lowerStr fn) ("ewma") = false →
      strContains (lowerStr fn) ("cusum") = false →
      strContains (lowerStr fn) ("zscore") = false →
      (strContains (lowerStr fn) ("holt") || strContains (lowerStr fn) ("winters")) = true →
      infer_model_type fn none = "holt_winters") ∧
    (strContains (lowerStr fn) ("rolling") = false →
      strContains (lowerStr fn) ("ewma") = false →
      strContains (lowerStr fn) ("cusum") = false →
      strContains (lowerStr fn) ("zscore") = false →
      strContains (lowerStr fn) ("holt") = false →
      strContains (lowerStr fn) ("winters") = false →
      strContains (lowerStr fn) ("high_sensitivity") = true →
      infer_model_type fn none = "high_sensitivity") ∧
    (strContains (lowerStr fn) ("rolling") = false →
      strContains (lowerStr fn) ("ewma") = false →
      strContains (lowerStr fn) ("cusum") = false →
      strContains (lowerStr fn) ("zscore") = false →
      strContains (lowerStr fn) ("holt") = false →
      strContains (lowerStr fn) ("winters") = false →
      strContains (lowerStr fn) ("high_sensitivity") = false →
      infer_model_type fn none = "arima") := by
  refine ⟨?_, ?_, ?_, ?_, ?_, ?_, ?_, ?_, ?_⟩ <;> intros <;>
    simp_all [infer_model_type, inferFromName]

/-- Witness for C8: an explicit model_type wins, and two file-name
inferences land on their families. -/
theorem infer_model_type_classification_witness :
    infer_model_type "model.pkl" (some "CUSUM") = "cusum" ∧
    infer_model_type "swat_ewma_v2.pkl" none = "ewma" ∧
    infer_model_type "granger_model.pkl" none = "arima" :=
  ⟨((infer_model_type_classification "model.pkl" "CUSUM").1 (by decide)).trans (by decide),
   (infer_model_type_classification "swat_ewma_v2.pkl" "x").2.2.1 (by decide) (by decide),
   (infer_model_type_classification "granger_model.pkl" "x").2.2.2.2.2.2.2.2 (by decide)
     (by decide) (by decide) (by decide) (by decide) (by decide) (by decide)⟩

/-- C6: the exponential remap preserves the violation semantics: for any
z-value (the nonnegativity hypothesis of the claim is recorded though the
equivalence is unconditional) the dampened comparison holds iff the raw
comparison does; consequently the exponential-dampened violation flag
equals the baseline flag and the whole exponential-dampened aggregate
equals the baseline (Holt-Winters) aggregate on any artifact and batch. -/
theorem exp_damp_preserves_violations :
    (∀ z zth : ℝ, 0 ≤ z → (dampen zth < dampen z ↔ zth < z)) ∧
    (∀ (z : ℝ) (zth : ℚ), expViol z zth = baselineViol z zth) ∧
    (∀ (d : ModelDict) (X : Batch),
      ExpESDZScoreWrapper.aggregate_score d X = HoltWintersWrapper.aggregate_score d X) :=
  ⟨fun z zth _ => dampen_lt_dampen_iff zth z,
   expViol_eq_baselineViol,
   esd_aggregate_eq_hw⟩

/-- Witness for C6 at z = 1, threshold 0. -/
theorem exp_damp_preserves_violations_witness :
    (0 : ℝ) ≤ 1 ∧ (dampen 0 < dampen 1 ↔ (0 : ℝ) < 1) :=
  ⟨by norm_num, exp_damp_preserves_violations.1 1 0 (by norm_num)⟩

/-- C7: the wrap-time weight of a sensor targeted by k > 0 entries is
1 / k, those per-entry weights sum to 1 per sensor, and an entry whose
target_sensor is missing or empty (or a non-dict value) contributes no
weight and is excluded from aggregation: prepending it changes neither
the targets, the weight table, nor the aggregate score. -/
theorem inverse_frequency_weights :
    (∀ (M : List (String × ModelVal)) (s : String),
      (targetsOf M).count s ≠ 0 →
        sensorWeight M s = 1 / (((targetsOf M).count s : ℚ)) ∧
        (((targetsOf M).count s : ℚ)) * sensorWeight M s = 1) ∧
    (∀ (M : List (String × ModelVal)) (key : String) (bad : ModelVal),
      ExcludedVal bad →
        targetsOf ((key, bad) :: M) = targetsOf M ∧
        (∀ s, sensorWeight ((key, bad) :: M) s = sensorWeight M s)) ∧
    (∀ (d d2 : ModelDict) (M : List (String × ModelVal)) (key : String) (bad : ModelVal)
      (X : Batch),
      ExcludedVal bad → d.forecast_models = some M → M ≠ [] →
      d2.forecast_models = some ((key, bad) :: M) →
      ArimaWrapper.aggregate_score d2 X = ArimaWrapper.aggregate_score d X) := by
  have htargets : ∀ (M : List (String × ModelVal)) (key : String) (bad : ModelVal),
      ExcludedVal bad → targetsOf ((key, bad) :: M) = targetsOf M := by
    intro M key bad hbad
    cases bad with
    | junk => simp [targetsOf]
    | entry e =>
      simp only [ExcludedVal] at hbad
      simp [targetsOf, hbad]
  have hweights : ∀ (M : List (String × ModelVal)) (key : String) (bad : ModelVal),
      ExcludedVal bad → ∀ s, sensorWeight ((key, bad) :: M) s = sensorWeight M s := by
    intro M key bad hbad s
    unfold sensorWeight
    rw [htargets M key bad hbad]
  refine ⟨?_, fun M key bad hbad => ⟨htargets M key bad hbad, hweights M key bad hbad⟩, ?_⟩
  · intro M s hk
    unfold sensorWeight
    rw [if_neg hk]
    refine ⟨rfl, ?_⟩
    rw [mul_one_div_cancel]
    exact_mod_cast hk
  · intro d d2 M key bad X hbad hd hM hd2
    have hm2 : ArimaWrapper.modelsOf d2 = (key, bad) :: M := by
      simp [ArimaWrapper.modelsOf, hd2, pyDictOr]
    have hm : ArimaWrapper.modelsOf d = M := by
      simp [ArimaWrapper.modelsOf, hd, pyDictOr, List.isEmpty_iff, hM]
    unfold ArimaWrapper.aggregate_score
    rw [hm2, hm]
    unfold ensembleAggregate
    by_cases hn : X.nrows = 0
    · rw [if_pos hn, if_pos hn]
    · rw [if_neg hn, if_neg hn]
      have hwfun : sensorWeight ((key, bad) :: M) = sensorWeight M :=
        funext (hweights M key bad hbad)
      rw [hwfun]
      show aggregateLoop _ _ ((key, bad) :: M) = _
      rw [aggregateLoop, entryContribution_excluded _ _ _ _ _ hbad]

/-- Witness for C7 on a one-entry artifact and the padded variant. -/
theorem inverse_frequency_weights_witness :
    ((targetsOf [("m1", ModelVal.entry entryP1)]).count "P1" ≠ 0 ∧
      sensorWeight [("m1", ModelVal.entry entryP1)] "P1" =
        1 / (((targetsOf [("m1", ModelVal.entry entryP1)]).count "P1" : ℚ))) ∧
    ArimaWrapper.aggregate_score paddedDict batchP1 =
      ArimaWrapper.aggregate_score ensembleDict batchP1 :=
  ⟨⟨by decide, (inverse_frequency_weights.1 [("m1", ModelVal.entry entryP1)] "P1" (by decide)).1⟩,
   inverse_frequency_weights.2.2 ensembleDict paddedDict [("m1", ModelVal.entry entryP1)]
     "m0" (ModelVal.entry entryNoTarget) batchP1 rfl rfl (List.cons_ne_nil _ _) rfl⟩

/-- Counterexample to C2 as stated: on the zero-row batch the CUSUM
policy predict returns the one-element vector [0] (derived from the
default probability row), not an empty vector. -/
theorem cusum_empty_predict_not_empty :
    CUSUMWrapper.predict none emptyBatch = [0] ∧ ([0] : List ℤ) ≠ [] := by
  refine ⟨?_, by simp⟩
  unfold CUSUMWrapper.predict CUSUMWrapper.predict_proba
  simp only [emptyBatch]
  norm_num [pyFloatOr]

/-- C2 amended: on a zero-row batch every family returns the single
default probability row [1, 0] from predict_proba without error; predict
returns an empty vector for the four forecast-ensemble families, while
the CUSUM, EWMA, z-score and rolling-quantile families route predict
through predict_proba and return the one-element vector whose entry is 0
unless the effective threshold is nonpositive; the rolling-quantile
predict raises AttributeError (reading the absent voting_threshold) when
its resolved anomaly threshold is falsy. -/
theorem empty_batch_outputs
    (d : ModelDict) (thr : Option ℚ) (c : EWMAChart) (zm : Option ZScoreModelObj)
    (rm : Option RollingModelObj) (X : Batch) (h0 : X.nrows = 0) :
    ArimaWrapper.predict d X = some [] ∧
    ArimaWrapper.predict_proba d X = some [(1, 0)] ∧
    HoltWintersWrapper.predict d X = some [] ∧
    HoltWintersWrapper.predict_proba d X = some [(1, 0)] ∧
    ExpESDZScoreWrapper.predict d X = some [] ∧
    ExpESDZScoreWrapper.predict_proba d X = some [(1, 0)] ∧
    HighSensitivityWrapper.predict d X = some [] ∧
    HighSensitivityWrapper.predict_proba d X = some [(1, 0)] ∧
    CUSUMWrapper.predict_proba X = [(1, 0)] ∧
    CUSUMWrapper.predict thr X =
      [if ((pyFloatOr thr (1 / 2) : ℚ) : ℝ) ≤ 0 then 1 else 0] ∧
    EWMAWrapper.predict_proba c X = [(1, 0)] ∧
    EWMAWrapper.predict thr c X =
      [if ((pyFloatOr thr (1 / 2) : ℚ) : ℝ) ≤ 0 then 1 else 0] ∧
    ZScoreWrapper.predict_proba zm X = [(1, 0)] ∧
    ZScoreWrapper.predict zm thr X =
      [if ((pyFloatOr thr (1 / 2) : ℚ) : ℝ) ≤ 0 then 1 else 0] ∧
    RollingQuantileWrapper.predict_proba rm X = [(1, 0)] ∧
    (∀ v : ℚ, v ≠ 0 →
      RollingQuantileWrapper.predict (some v) rm X =
        some [if (v : ℝ) ≤ 0 then 1 else 0]) ∧
    RollingQuantileWrapper.predict none rm X = none := by
  refine ⟨?_, ?_, ?_, ?_, ?_, ?_, ?_, ?_, ?_, ?_, ?_, ?_, ?_, ?_, ?_, ?_, ?_⟩
  · simp [ArimaWrapper.predict, ArimaWrapper.aggregate_score, ensembleAggregate, h0,
      thresholdDecision]
  · simp [ArimaWrapper.predict_proba, ArimaWrapper.aggregate_score, ensembleAggregate, h0]
  · simp [HoltWintersWrapper.predict, HoltWintersWrapper.aggregate_score, ensembleAggregate,
      h0, thresholdDecision]
  · simp [HoltWintersWrapper.predict_proba, HoltWintersWrapper.aggregate_score,
      ensembleAggregate, h0]
  · simp [ExpESDZScoreWrapper.predict, ExpESDZScoreWrapper.aggregate_score, ensembleAggregate,
      h0, thresholdDecision]
  · simp [ExpESDZScoreWrapper.predict_proba, ExpESDZScoreWrapper.aggregate_score,
      ensembleAggregate, h0]
  · simp [HighSensitivityWrapper.predict, HighSensitivityWrapper.aggregate_score,
      ensembleAggregate, h0, thresholdDecision]
  · simp [HighSensitivityWrapper.predict_proba, HighSensitivityWrapper.aggregate_score,
      ensembleAggregate, h0]
  · simp [CUSUMWrapper.predict_proba, h0]
  · simp [CUSUMWrapper.predict, CUSUMWrapper.predict_proba, h0]
  · simp [EWMAWrapper.predict_proba, h0]
  · simp [EWMAWrapper.predict, EWMAWrapper.predict_proba, h0]
  · simp [ZScoreWrapper.predict_proba, h0]
  · simp [ZScoreWrapper.predict, ZScoreWrapper.predict_proba, h0]
  · simp [RollingQuantileWrapper.predict_proba, h0]
  · intro v hv
    simp [RollingQuantileWrapper.predict, RollingQuantileWrapper.predict_proba, h0, hv]
  · simp [RollingQuantileWrapper.predict, RollingQuantileWrapper.predict_proba, h0]

/-- Witness for C2 amended at the concrete empty batch. -/
theorem empty_batch_outputs_witness :
    ArimaWrapper.predict ensembleDict emptyBatch = some [] ∧
    CUSUMWrapper.predict_proba emptyBatch = [(1, 0)] :=
  ⟨(empty_batch_outputs ensembleDict none chart0 none none emptyBatch rfl).1,
   (empty_batch_outputs ensembleDict none chart0 none none emptyBatch rfl).2.2.2.2.2.2.2.2.1⟩

/-- Counterexample to C4 as stated: on the legacy artifact (forecast map
stored under arima_models) and the batch [3, -3, 0], the ARIMA policy
scores [1, 1, 0] while the high-sensitivity policy, which never reads
arima_models, scores [0, 0, 0]; the high-sensitivity raw scores are not
row-wise greater or equal. -/
theorem high_sensitivity_not_dominating :
    ArimaWrapper.aggregate_score legacyDict batchP1 = some [1, 1, 0] ∧
    HighSensitivityWrapper.aggregate_score legacyDict batchP1 = some [0, 0, 0] ∧
    ¬ List.Forall₂ (fun a b => a ≤ b) ([1, 1, 0] : List ℝ) ([0, 0, 0] : List ℝ) := by
  refine ⟨arima_aggregate_legacy, hs_aggregate_legacy, fun h => ?_⟩
  cases h with
  | cons h01 _ => exact absurd h01 (by norm_num)

/-- C4 amended: when the identical artifact stores its map under
forecast_models (nonempty) and every entry either is non-dict or carries
no fitted forecaster, a nonempty last_values buffer and nonnegative
importance (so that both policies produce the identical constant
forecasts), the high-sensitivity raw aggregate dominates the ARIMA raw
aggregate row-wise on every batch. -/
theorem high_sensitivity_dominates_on_shared_forecasts
    (d : ModelDict) (X : Batch) (M : List (String × ModelVal))
    (hd : d.forecast_models = some M) (hM : M ≠ [])
    (hv : ∀ kv ∈ M, SharedForecastVal kv.2) :
    ∃ rawA rawH, ArimaWrapper.aggregate_score d X = some rawA ∧
      HighSensitivityWrapper.aggregate_score d X = some rawH ∧
      List.Forall₂ (fun a b => a ≤ b) rawA rawH := by
  have hmA : ArimaWrapper.modelsOf d = M := by
    simp [ArimaWrapper.modelsOf, hd, pyDictOr, List.isEmpty_iff, hM]
  have hmH : HighSensitivityWrapper.modelsOf d = M := by
    simp [HighSensitivityWrapper.modelsOf, hd, pyDictOr, List.isEmpty_iff, hM]
  unfold ArimaWrapper.aggregate_score HighSensitivityWrapper.aggregate_score
  rw [hmA, hmH]
  unfold ensembleAggregate
  by_cases hn : X.nrows = 0
  · rw [if_pos hn, if_pos hn]
    exact ⟨[], [], rfl, rfl, List.Forall₂.nil⟩
  · rw [if_neg hn, if_neg hn]
    refine aggregateLoop_forall2_le _ _ M
      (fun kv hkv => shared_entry_outcomes (sensorWeight M)
        (sensorWeight_nonneg M) X kv.2 (hv kv hkv)) _ _ ?_
    exact List.forall₂_same.mpr (fun x _ => le_refl x)

/-- Witness for C4 amended on the one-entry forecast_models artifact and
the batch [3, -3, 0]. -/
theorem high_sensitivity_dominates_witness :
    ∃ rawA rawH, ArimaWrapper.aggregate_score ensembleDict batchP1 = some rawA ∧
      HighSensitivityWrapper.aggregate_score ensembleDict batchP1 = some rawH ∧
      List.Forall₂ (fun a b => a ≤ b) rawA rawH :=
  high_sensitivity_dominates_on_shared_forecasts ensembleDict batchP1
    [("m1", ModelVal.entry entryP1)] rfl (List.cons_ne_nil _ _)
    (by
      intro kv hkv
      rw [List.mem_singleton] at hkv
      subst hkv
      exact ⟨rfl, rfl, by simp [entryP1], by norm_num [entryP1]⟩)

/-- Counterexample to C5 as stated: the Holt-Winters policy (and likewise
the exponential-dampened and high-sensitivity policies) does not read the
legacy arima_models key, so the legacy artifact scores all-zero while the
ARIMA policy scores its entries. -/
theorem legacy_key_counterexample :
    ArimaWrapper.aggregate_score legacyDict batchP1 = some [1, 1, 0] ∧
    HoltWintersWrapper.aggregate_score legacyDict batchP1 = some [0, 0, 0] ∧
    ExpESDZScoreWrapper.aggregate_score legacyDict batchP1 = some [0, 0, 0] ∧
    HighSensitivityWrapper.aggregate_score legacyDict batchP1 = some [0, 0, 0] ∧
    HoltWintersWrapper.aggregate_score legacyDict batchP1 ≠
      ArimaWrapper.aggregate_score legacyDict batchP1 := by
  refine ⟨arima_aggregate_legacy, hw_aggregate_legacy,
    (esd_aggregate_eq_hw legacyDict batchP1).trans hw_aggregate_legacy,
    hs_aggregate_legacy, ?_⟩
  rw [hw_aggregate_legacy, arima_aggregate_legacy]
  intro h
  rw [Option.some_inj] at h
  have h0 : (0 : ℝ) = 1 := List.head_eq_of_cons_eq h
  norm_num at h0

/-- C5 amended: only the ARIMA wrapper consults the legacy arima_models
key (when forecast_models is absent or empty); the Holt-Winters,
exponential-dampened and high-sensitivity wrappers read only
forecast_models and score an artifact without it as empty, producing the
all-zero raw vector; when forecast_models is present and nonempty all
four wrappers score the same map. -/
theorem legacy_key_resolution :
    (∀ (d : ModelDict) (X : Batch),
      (d.forecast_models = none ∨ d.forecast_models = some []) →
      ArimaWrapper.modelsOf d = pyDictOr d.arima_models [] ∧
      HoltWintersWrapper.aggregate_score d X = some (List.replicate X.nrows 0) ∧
      ExpESDZScoreWrapper.aggregate_score d X = some (List.replicate X.nrows 0) ∧
      HighSensitivityWrapper.aggregate_score d X = some (List.replicate X.nrows 0)) ∧
    (∀ (d : ModelDict) (M : List (String × ModelVal)),
      d.forecast_models = some M → M ≠ [] →
      ArimaWrapper.modelsOf d = M ∧ HoltWintersWrapper.modelsOf d = M ∧
      ExpESDZScoreWrapper.modelsOf d = M ∧ HighSensitivityWrapper.modelsOf d = M) := by
  constructor
  · intro d X hfm
    have hnil : pyDictOr d.forecast_models ([] : List (String × ModelVal)) = [] := by
      rcases hfm with h | h <;> simp [pyDictOr, h]
    have hmw : HoltWintersWrapper.modelsOf d = [] := hnil
    have hme : ExpESDZScoreWrapper.modelsOf d = [] := hnil
    have hmh : HighSensitivityWrapper.modelsOf d = [] := hnil
    refine ⟨?_, ?_, ?_, ?_⟩
    · unfold ArimaWrapper.modelsOf
      rcases hfm with h | h <;> simp [pyDictOr, h]
    · unfold HoltWintersWrapper.aggregate_score
      rw [hmw]
      exact ensembleAggregate_nil _ _ _ _
    · unfold ExpESDZScoreWrapper.aggregate_score
      rw [hme]
      exact ensembleAggregate_nil _ _ _ _
    · unfold HighSensitivityWrapper.aggregate_score
      rw [hmh]
      exact ensembleAggregate_nil _ _ _ _
  · intro d M hd hM
    have h : pyDictOr d.forecast_models ([] : List (String × ModelVal)) = M := by
      simp [pyDictOr, hd, List.isEmpty_iff, hM]
    refine ⟨?_, h, h, h⟩
    simp [ArimaWrapper.modelsOf, hd, pyDictOr, List.isEmpty_iff, hM]

/-- Counterexample to C3 as stated: on an artifact whose stored anomaly
threshold is 0 (set but not positive) the code centers the logistic at
float(threshold or 1.0) = 1.0, not at half the sensor-weight mass (0.5
here), and the probability rows differ. -/
theorem predict_proba_center_counterexample :
    ArimaWrapper.predict_proba zeroThrDict batchConst ≠
      specPredictProbaArima zeroThrDict batchConst := by
  have hmass := total_weight_zeroThr
  have hcode_center : ((pyFloatOr zeroThrDict.anomaly_threshold 1 : ℚ) : ℝ) = 1 := by
    norm_num [pyFloatOr, zeroThrDict]
  have hspec_center : specCenter zeroThrDict.anomaly_threshold
      (totalSensorWeight (ArimaWrapper.modelsOf zeroThrDict)) = 1 / 2 := by
    rw [show zeroThrDict.anomaly_threshold = some 0 from rfl]
    unfold specCenter
    rw [hmass]
    norm_num
  have hscale : max (((totalSensorWeight (ArimaWrapper.modelsOf zeroThrDict) : ℚ) : ℝ) / 3)
      ((3 : ℝ) / 4) = 3 / 4 := by
    rw [hmass]
    rw [max_eq_right (by norm_num)]
  unfold ArimaWrapper.predict_proba specPredictProbaArima
  rw [arima_aggregate_const]
  simp only [Option.map_some', List.isEmpty_cons, Bool.false_eq_true, if_false,
    List.map_cons, List.map_nil, hcode_center, hspec_center, hscale]
  intro h
  rw [Option.some_inj] at h
  simp only [List.cons.injEq, Prod.mk.injEq, and_true] at h
  have hp : clipProb (sigmoid ((0 - 1) / (3 / 4 + ((EPS : ℚ) : ℝ)))) =
      clipProb (sigmoid ((0 - 1 / 2) / (3 / 4 + ((EPS : ℚ) : ℝ)))) := h.1.2
  have hεval : ((EPS : ℚ) : ℝ) = 1 / 10 ^ 12 := eps_real_eq
  have hd : (0 : ℝ) < 3 / 4 + ((EPS : ℚ) : ℝ) := by
    rw [hεval]
    norm_num
  have hab : ((0 : ℝ) - 1) / (3 / 4 + ((EPS : ℚ) : ℝ)) <
      ((0 : ℝ) - 1 / 2) / (3 / 4 + ((EPS : ℚ) : ℝ)) := by
    rw [div_lt_div_iff₀ hd hd]
    nlinarith
  have hbound : (-2 : ℝ) ≤ ((0 : ℝ) - 1) / (3 / 4 + ((EPS : ℚ) : ℝ)) := by
    rw [hεval, le_div_iff₀ (by norm_num)]
    norm_num
  have hsa := sigmoid_ge_of_ge hbound
  have hbneg : ((0 : ℝ) - 1 / 2) / (3 / 4 + ((EPS : ℚ) : ℝ)) < 0 :=
    div_neg_of_neg_of_pos (by norm_num) hd
  have hsb_half := sigmoid_lt_half hbneg
  have hmono := sigmoid_lt_sigmoid hab
  have hsb_ge : 1 / 10 ^ 5 ≤ sigmoid (((0 : ℝ) - 1 / 2) / (3 / 4 + ((EPS : ℚ) : ℝ))) :=
    le_trans hsa hmono.le
  have hsa_half : sigmoid (((0 : ℝ) - 1) / (3 / 4 + ((EPS : ℚ) : ℝ))) < 1 / 2 :=
    lt_trans hmono hsb_half
  rw [clipProb_eq_self hsa (by linarith), clipProb_eq_self hsb_ge (by linarith)] at hp
  exact absurd hp (ne_of_lt hmono)

/-- Witness for C5 amended on the two concrete artifacts. -/
theorem legacy_key_resolution_witness :
    (ArimaWrapper.modelsOf legacyDict = pyDictOr legacyDict.arima_models [] ∧
      HoltWintersWrapper.aggregate_score legacyDict batchP1 =
        some (List.replicate batchP1.nrows 0)) ∧
    HoltWintersWrapper.modelsOf ensembleDict = [("m1", ModelVal.entry entryP1)] :=
  ⟨⟨(legacy_key_resolution.1 legacyDict batchP1 (Or.inl rfl)).1,
    (legacy_key_resolution.1 legacyDict batchP1 (Or.inl rfl)).2.1⟩,
   (legacy_key_resolution.2 ensembleDict [("m1", ModelVal.entry entryP1)] rfl
     (List.cons_ne_nil _ _)).2.1⟩

/-- C3 amended: for any nonempty raw aggregate the ARIMA-family and
high-sensitivity predict_proba emit exactly the clipped logistic rows
with scale max(mass/3, 0.75) resp. max(mass/4, 0.5), centered at
float(anomaly_threshold or 1.0): the resolved threshold whenever it is
set and nonzero (negative values included), and 1.0 otherwise — not half
the sensor-weight mass. -/
theorem predict_proba_formula :
    (∀ (d : ModelDict) (X : Batch) (raw : List ℝ),
      ArimaWrapper.aggregate_score d X = some raw → raw ≠ [] →
      ArimaWrapper.predict_proba d X = some (raw.map (calibratedRow
        (amendedCenter d.anomaly_threshold)
        (max (((totalSensorWeight (ArimaWrapper.modelsOf d) : ℚ) : ℝ) / 3) (3 / 4))))) ∧
    (∀ (d : ModelDict) (X : Batch) (raw : List ℝ),
      HighSensitivityWrapper.aggregate_score d X = some raw → raw ≠ [] →
      HighSensitivityWrapper.predict_proba d X = some (raw.map (calibratedRow
        (amendedCenter d.anomaly_threshold)
        (max (((totalSensorWeight (HighSensitivityWrapper.modelsOf d) : ℚ) : ℝ) / 4)
          (1 / 2))))) := by
  constructor
  · intro d X raw hagg hne
    unfold ArimaWrapper.predict_proba
    rw [hagg]
    simp only [Option.map_some', Option.some_inj]
    rw [if_neg (by simp [List.isEmpty_iff, hne])]
    rfl
  · intro d X raw hagg hne
    unfold HighSensitivityWrapper.predict_proba
    rw [hagg]
    simp only [Option.map_some', Option.some_inj]
    rw [if_neg (by simp [List.isEmpty_iff, hne])]
    rfl

/-- Witness for C3 amended at the zero-threshold artifact. -/
theorem predict_proba_formula_witness :
    ArimaWrapper.predict_proba zeroThrDict batchConst =
      some (([0, 0] : List ℝ).map (calibratedRow
        (amendedCenter zeroThrDict.anomaly_threshold)
        (max (((totalSensorWeight (ArimaWrapper.modelsOf zeroThrDict) : ℚ) : ℝ) / 3)
          (3 / 4)))) :=
  predict_proba_formula.1 zeroThrDict batchConst [0, 0] arima_aggregate_const (by simp)

end Swat
